import Mathlib

/-!
# Thai tone cheat-sheet: audio resolution, voice selection and the rule table

A shallow embedding of the decision logic of `src/App.jsx` and
`src/ToneCheatSheet.jsx`: JavaScript strings are Lean strings, `null` and
`undefined` are `none`, React state is an explicit record, and the
asynchronous outcome of `audio.play()` is an explicit parameter.
-/

namespace ThaiVoice

/-! ## Values -/

/-- JavaScript truthiness of a value that is a string, `null` or `undefined`:
only a non-empty string is truthy. -/
def truthy : Option String → Bool
  | some s => s != ""
  | none => false

/-- The call `s.replace(/\/$/, '')`: the pattern matches one slash at the very
end of the input, and that single slash is removed. -/
def stripTrailingSlash (s : String) : String :=
  if s.data.getLast? = some '/' then String.mk s.data.dropLast else s

/-- An entry of the `voices` array of the manifest document. -/
structure Voice where
  id : String
  label : Option String
  basePath : Option String
  description : Option String
  sample : Option String
deriving DecidableEq, Repr

/-- An entry of the `clips` array of the manifest document. -/
structure ClipEntry where
  word : String
  file : String
deriving DecidableEq, Repr

/-- The parsed manifest document; either top-level key may be missing. -/
structure Manifest where
  voices : Option (List Voice)
  clips : Option (List ClipEntry)
deriving DecidableEq, Repr

/-! ## Audio resolver (`ToneCheatSheet.jsx`, lines 32-60) -/

/-- The expression
`selectedVoice?.basePath?.replace(/\/$/, '') || '/audio'` (line 34). -/
def baseAudioPath (selectedVoice : Option Voice) : String :=
  match selectedVoice.bind (fun v => v.basePath) with
  | none => "/audio"
  | some b => if truthy (some (stripTrailingSlash b)) then stripTrailingSlash b else "/audio"

/-- The template string of line 42. -/
def primarySrc (selectedVoice : Option Voice) (file : String) : String :=
  baseAudioPath selectedVoice ++ "/" ++ file

/-- The template string of line 43. -/
def fallbackSrc (file : String) : String :=
  "/audio/" ++ file

/-- The audio element held in `audioRef.current`. -/
structure AudioEl where
  src : String
  currentTime : Nat
  paused : Bool
deriving DecidableEq, Repr

/-- What one `handlePlay` call has done so far: the element it drives, the
sources it handed to `audio.play()` (oldest first) and the number of
`console.error` reports. -/
structure Playback where
  audio : AudioEl
  attempts : List String
  errors : Nat
deriving DecidableEq, Repr

/-- The inner function `playFrom(src, allowFallback)` (lines 45-57). `plays n s`
tells whether the promise of the attempt number `n` of this call, on source `s`,
resolves (`true`) or rejects (`false`). -/
def playFrom (plays : Nat → String → Bool) (fb : String) (src : String)
    (allowFallback : Bool) (p : Playback) : Playback :=
  let started : Playback :=
    { audio := { src := src, currentTime := 0, paused := true },
      attempts := p.attempts ++ [src],
      errors := p.errors }
  if plays p.attempts.length src then
    { started with audio := { started.audio with paused := false } }
  else if _h : allowFallback = true ∧ src ≠ fb then
    playFrom plays fb fb false started
  else
    { started with errors := started.errors + 1 }
termination_by (if allowFallback then 1 else 0)
decreasing_by
  have ha := _h.1
  simp [ha]

/-- The outcome of one `handlePlay(file)` call (lines 36-60): the content of
`audioRef.current` afterwards, the sources attempted by this call in order, and
the number of failures reported. -/
structure PlayResult where
  audioRef : Option AudioEl
  attempts : List String
  errors : Nat
deriving DecidableEq, Repr

/-- The function `handlePlay(file)` (lines 36-60), run until its promise chain
has settled. -/
def handlePlay (plays : Nat → String → Bool) (selectedVoice : Option Voice)
    (audioRef : Option AudioEl) (file : Option String) : PlayResult :=
  match file with
  | none => { audioRef := audioRef, attempts := [], errors := 0 }
  | some f =>
    if !truthy (some f) then { audioRef := audioRef, attempts := [], errors := 0 }
    else
      let audio : AudioEl :=
        match audioRef with
        | some a => a
        | none => { src := "", currentTime := 0, paused := true }
      let r := playFrom plays (fallbackSrc f) (primarySrc selectedVoice f) true
        { audio := audio, attempts := [], errors := 0 }
      { audioRef := some r.audio, attempts := r.attempts, errors := r.errors }

/-! ## The clip lookup (`App.jsx`, lines 38-44; `ToneCheatSheet.jsx`, line 30) -/

/-- The result of reading a property of the lookup object: `undefined`, a
string stored by the program, or a value the object inherits under that name
from `Object.prototype`. -/
inductive JSValue where
  | undefined
  | str (s : String)
  | inherited (name : String)
deriving DecidableEq, Repr

/-- The property names every object literal inherits from `Object.prototype`. -/
def objectPrototypeKeys : List String :=
  ["constructor", "hasOwnProperty", "isPrototypeOf", "propertyIsEnumerable",
   "toLocaleString", "toString", "valueOf", "__proto__", "__defineGetter__",
   "__defineSetter__", "__lookupGetter__", "__lookupSetter__"]

/-- An object created by the literal `{}` whose own properties hold strings:
the own properties, the most recently created first. -/
abbrev JSObject := List (String × String)

/-- The assignment `acc[key] = value` of a string value. Under the name
`__proto__` the inherited setter runs and discards a string; under every other
name the own property is created or overwritten. -/
def JSObject.set (acc : JSObject) (key value : String) : JSObject :=
  if key = "__proto__" then acc
  else (key, value) :: acc.filter (fun kv => kv.1 != key)

/-- The read `obj[key]`: the own property when there is one, otherwise what
`Object.prototype` holds under that name, otherwise `undefined`. -/
def JSObject.get (obj : JSObject) (key : String) : JSValue :=
  match obj.lookup key with
  | some v => JSValue.str v
  | none => if key ∈ objectPrototypeKeys then JSValue.inherited key else JSValue.undefined

/-- The memoised value `audioMap` (lines 38-44 of `App.jsx`). -/
def audioMap (manifest : Option Manifest) : JSObject :=
  match manifest.bind (fun m => m.clips) with
  | none => []
  | some clips => clips.foldl (fun acc clip => acc.set clip.word clip.file) []

/-- The function `audioFor` (line 30 of `ToneCheatSheet.jsx`); the component
always receives an object for `audioMap`. -/
def audioFor (audioMap : JSObject) (word : String) : JSValue :=
  audioMap.get word

/-! ## Selection state (`App.jsx`) -/

/-- The React state of `App` together with the browser storage slot
`tonecheatsheet.voiceId`: its current value and the values written to it by
`localStorage.setItem`, oldest first. -/
structure AppState where
  manifest : Option Manifest
  selectedVoiceId : Option String
  error : Option String
  storage : Option String
  writes : List String
deriving DecidableEq, Repr

/-- The test `data?.voices?.some((v) => v.id === stored)` (line 20); a missing
`voices` key gives `undefined`, which is falsy. -/
def hasStored (data : Manifest) (stored : Option String) : Bool :=
  match data.voices with
  | none => false
  | some vs => vs.any (fun v => some v.id == stored)

/-- The expression `hasStored ? stored : data?.voices?.[0]?.id ?? null`
(lines 21-23). -/
def initialVoice (data : Manifest) (stored : Option String) : Option String :=
  if hasStored data stored then stored
  else
    match data.voices with
    | none => none
    | some vs => vs.head?.map (fun v => v.id)

/-- The function `loadManifest` (lines 13-33), given what fetching and parsing
`/voices.json` produced: `none` when either of them threw. -/
def loadManifest (fetched : Option Manifest) (st : AppState) : AppState :=
  match fetched with
  | none => { st with error := some "ไม่สามารถโหลดรายการเสียงได้" }
  | some data =>
    let st1 : AppState := { st with manifest := some data }
    let stored := st1.storage
    let iv := initialVoice data stored
    match iv with
    | some id =>
      if truthy (some id) then
        { st1 with selectedVoiceId := some id, storage := some id, writes := st1.writes ++ [id] }
      else st1
    | none => st1

/-- The derived value `selectedVoice` (lines 46-49). -/
def selectedVoice (st : AppState) : Option Voice :=
  match st.manifest.bind (fun m => m.voices) with
  | none => none
  | some vs =>
    match vs.find? (fun v => some v.id == st.selectedVoiceId) with
    | some v => some v
    | none => vs.head?

/-- The function `handleVoiceChange` (lines 51-54). -/
def handleVoiceChange (voiceId : String) (st : AppState) : AppState :=
  { st with selectedVoiceId := some voiceId, storage := some voiceId,
            writes := st.writes ++ [voiceId] }

/-- The click handler of a rule card (line 519 of `ToneCheatSheet.jsx`):
`setActiveRule(activeRule === rule.id ? null : rule.id)`. -/
def toggleRule (ruleId : Nat) (activeRule : Option Nat) : Option Nat :=
  if activeRule = some ruleId then none else some ruleId

/-- The flag `isActive` handed to a rule card (line 518). -/
def isActive (activeRule : Option Nat) (ruleId : Nat) : Bool :=
  activeRule == some ruleId

/-! ## The rule table (`ToneCheatSheet.jsx`, lines 62-155) -/

/-- One row of a rule: tone-mark shape, resulting sound, example word (the
property `example`, a reserved word here) and the clip joined to it. -/
structure Tone where
  shape : String
  sound : String
  exampleWord : String
  audio : JSValue
deriving DecidableEq, Repr

/-- One rule of the table. -/
structure Rule where
  id : Nat
  consonant : String
  syllable : String
  base : String
  count : Nat
  tones : List Tone
  note : String
deriving DecidableEq, Repr

/-- The constant `rules` (lines 62-155), built in the component from the clip
lookup it received. -/
def rules (audioMap : JSObject) : List Rule :=
  [ { id := 1, consonant := "กลาง", syllable := "คำเป็น", base := "สามัญ", count := 5,
      tones := [
        { shape := "สามัญ", sound := "สามัญ", exampleWord := "กา", audio := audioFor audioMap "กา" },
        { shape := "เอก", sound := "เอก", exampleWord := "ก่า", audio := audioFor audioMap "ก่า" },
        { shape := "โท", sound := "โท", exampleWord := "ก้า", audio := audioFor audioMap "ก้า" },
        { shape := "ตรี", sound := "ตรี", exampleWord := "ก๊า", audio := audioFor audioMap "ก๊า" },
        { shape := "จัตวา", sound := "จัตวา", exampleWord := "ก๋า", audio := audioFor audioMap "ก๋า" } ],
      note := "รูป = เสียง ตรงกันหมด" },
    { id := 2, consonant := "กลาง", syllable := "คำตาย", base := "เอก", count := 4,
      tones := [
        { shape := "—", sound := "เอก", exampleWord := "จะ", audio := audioFor audioMap "จะ" },
        { shape := "โท", sound := "โท", exampleWord := "จ้ะ", audio := audioFor audioMap "จ้ะ" },
        { shape := "ตรี", sound := "ตรี", exampleWord := "จ๊ะ", audio := audioFor audioMap "จ๊ะ" },
        { shape := "จัตวา", sound := "จัตวา", exampleWord := "จ๋ะ", audio := audioFor audioMap "จ๋ะ" } ],
      note := "ไม่มีรูป → เสียงเอก" },
    { id := 3, consonant := "สูง", syllable := "คำเป็น", base := "จัตวา", count := 3,
      tones := [
        { shape := "—", sound := "จัตวา", exampleWord := "ขา", audio := audioFor audioMap "ขา" },
        { shape := "เอก", sound := "เอก", exampleWord := "ข่า", audio := audioFor audioMap "ข่า" },
        { shape := "โท", sound := "โท", exampleWord := "ข้า", audio := audioFor audioMap "ข้า" } ],
      note := "ไม่มีรูป → เสียงจัตวา" },
    { id := 4, consonant := "สูง", syllable := "คำตาย", base := "เอก", count := 2,
      tones := [
        { shape := "—", sound := "เอก", exampleWord := "ขะ", audio := audioFor audioMap "ขะ" },
        { shape := "โท", sound := "โท", exampleWord := "ข้ะ", audio := audioFor audioMap "ข้ะ" } ],
      note := "ผันได้น้อยที่สุด" },
    { id := 5, consonant := "ต่ำ", syllable := "คำเป็น", base := "สามัญ", count := 3,
      tones := [
        { shape := "—", sound := "สามัญ", exampleWord := "คา", audio := audioFor audioMap "คา" },
        { shape := "เอก", sound := "โท", exampleWord := "ค่า", audio := audioFor audioMap "ค่า" },
        { shape := "โท", sound := "ตรี", exampleWord := "ค้า", audio := audioFor audioMap "ค้า" } ],
      note := "รูป ≠ เสียง (เลื่อนขึ้น 1)" },
    { id := 6, consonant := "ต่ำ", syllable := "คำตาย สระสั้น", base := "ตรี", count := 3,
      tones := [
        { shape := "—", sound := "ตรี", exampleWord := "คะ", audio := audioFor audioMap "คะ" },
        { shape := "เอก", sound := "โท", exampleWord := "ค่ะ", audio := audioFor audioMap "ค่ะ" },
        { shape := "จัตวา", sound := "จัตวา", exampleWord := "ค๋ะ", audio := audioFor audioMap "ค๋ะ" } ],
      note := "พื้นเสียงตรี" },
    { id := 7, consonant := "ต่ำ", syllable := "คำตาย สระยาว", base := "โท", count := 2,
      tones := [
        { shape := "—", sound := "โท", exampleWord := "โคก", audio := audioFor audioMap "โคก" },
        { shape := "โท", sound := "ตรี", exampleWord := "โค้ก", audio := audioFor audioMap "โค้ก" } ],
      note := "พื้นเสียงโท" } ]

/-- The test of line 315 that renders a shape as a dash instead of a tone
badge: `tone.shape === '—'`. -/
def isNoMarkShape (t : Tone) : Bool :=
  t.shape == "—"

/-- Following the claim's words: the place of a tone-mark shape in the sequence
none, เอก, โท, ตรี, จัตวา (the key order of `toneColors`, lines 22-28). The
unmarked place is written `—` in the table and, in rule 1, `สามัญ`; a string
that is no shape at all gets 5. -/
def markRank (shape : String) : Nat :=
  if shape = "—" ∨ shape = "สามัญ" then 0
  else if shape = "เอก" then 1
  else if shape = "โท" then 2
  else if shape = "ตรี" then 3
  else if shape = "จัตวา" then 4
  else 5

/-! ## Sample data used in the concrete instances -/

/-- A voice with the given id and base path and no other field. -/
def sampleVoice (id : String) (basePath : Option String) : Voice :=
  { id := id, label := none, basePath := basePath, description := none, sample := none }

/-- Playback that rejects every attempt, so that every candidate source is tried. -/
def alwaysFails : Nat → String → Bool :=
  fun _ _ => false

/-- The manifest with the two voices `A` and `B`, in that order, and no clips. -/
def manifestAB : Manifest :=
  { voices := some [sampleVoice "A" none, sampleVoice "B" none], clips := none }

/-- The state in which `manifestAB` is loaded and the given voice id is both
selected and stored, nothing written yet. -/
def stateAB (current : String) : AppState :=
  { manifest := some manifestAB, selectedVoiceId := some current, error := none,
    storage := some current, writes := [] }

/-- The state at mount: nothing loaded, nothing selected, with the given stored
preference. -/
def initialState (stored : Option String) : AppState :=
  { manifest := none, selectedVoiceId := none, error := none, storage := stored, writes := [] }

/-- A manifest with the given clips and no `voices` key. -/
def manifestOfClips (clips : List ClipEntry) : Manifest :=
  { voices := none, clips := some clips }

/-- A manifest with neither `voices` nor `clips`. -/
def emptyManifest : Manifest :=
  { voices := none, clips := none }

/-- The manifest whose clips give the word `กา` the file `a.mp3` and then the
file `b.mp3`. -/
def manifestKaa : Manifest :=
  manifestOfClips [{ word := "กา", file := "a.mp3" }, { word := "กา", file := "b.mp3" }]

/-! ## Facts about the audio resolver -/

theorem playFrom_attempts_noFallback (plays : Nat → String → Bool) (fb src : String)
    (p : Playback) :
    (playFrom plays fb src false p).attempts = p.attempts ++ [src] := by
  rw [playFrom]
  by_cases hp : plays p.attempts.length src = true <;> simp [hp]

theorem playFrom_attempts (plays : Nat → String → Bool) (fb src : String) (p : Playback) :
    (playFrom plays fb src true p).attempts =
      p.attempts ++ src :: (if plays p.attempts.length src = false ∧ src ≠ fb then [fb] else []) := by
  rw [playFrom]
  by_cases hp : plays p.attempts.length src = true
  · simp [hp]
  · by_cases hs : src = fb
    · subst hs
      simp [hp]
    · simp [hp, hs, playFrom_attempts_noFallback]

theorem truthy_some (f : String) : truthy (some f) = true ↔ f ≠ "" := by
  simp [truthy]

theorem handlePlay_attempts (plays : Nat → String → Bool) (voice : Option Voice)
    (ref : Option AudioEl) (f : String) (hf : f ≠ "") :
    (handlePlay plays voice ref (some f)).attempts =
      primarySrc voice f ::
        (if plays 0 (primarySrc voice f) = false ∧ primarySrc voice f ≠ fallbackSrc f
          then [fallbackSrc f] else []) := by
  have ht : truthy (some f) = true := (truthy_some f).2 hf
  simp [handlePlay, ht, playFrom_attempts]

theorem stripTrailingSlash_append_slash (p : String) :
    stripTrailingSlash (p ++ "/") = p := by
  have hd : (p ++ "/").data = p.data ++ ['/'] := by
    rw [String.data_append]
  simp [stripTrailingSlash, hd]

theorem stripTrailingSlash_of_no_slash (b : String) (h : ∀ p : String, b ≠ p ++ "/") :
    stripTrailingSlash b = b := by
  unfold stripTrailingSlash
  split
  · rename_i hl
    exfalso
    have hne : b.data ≠ [] := by
      intro h0; simp [h0] at hl
    apply h (String.mk b.data.dropLast)
    apply String.ext
    rw [String.data_append]
    have hlast : b.data.getLast hne = '/' := by
      rw [List.getLast?_eq_getLast _ hne] at hl
      exact Option.some.inj hl
    have := List.dropLast_append_getLast hne
    rw [hlast] at this
    exact this.symm
  · rfl

theorem stripTrailingSlash_eq_empty (b : String) :
    stripTrailingSlash b = "" ↔ b = "" ∨ b = "/" := by
  constructor
  · intro h
    by_cases hs : ∃ p : String, b = p ++ "/"
    · obtain ⟨p, rfl⟩ := hs
      rw [stripTrailingSlash_append_slash] at h
      subst h
      right; rfl
    · left
      rw [stripTrailingSlash_of_no_slash b (fun p hp => hs ⟨p, hp⟩)] at h
      exact h
  · rintro (rfl | rfl) <;> decide

theorem baseAudioPath_of_basePath (v : Voice) (b : String) (hb : v.basePath = some b)
    (h1 : b ≠ "") (h2 : b ≠ "/") :
    baseAudioPath (some v) = stripTrailingSlash b := by
  have hne : stripTrailingSlash b ≠ "" := by
    intro h
    rcases (stripTrailingSlash_eq_empty b).1 h with h | h
    · exact h1 h
    · exact h2 h
  simp [baseAudioPath, hb, truthy, hne]

theorem baseAudioPath_default (voice : Option Voice)
    (h : voice = none ∨ ∃ v, voice = some v ∧
      (v.basePath = none ∨ v.basePath = some "" ∨ v.basePath = some "/")) :
    baseAudioPath voice = "/audio" := by
  rcases h with rfl | ⟨v, rfl, hb | hb | hb⟩
  · rfl
  · simp [baseAudioPath, hb]
  · simp [baseAudioPath, hb, truthy, stripTrailingSlash]
  · simp [baseAudioPath, hb, truthy, stripTrailingSlash]

/-! ## C1: the candidate sources -/

/-- C1: for every voice (or none) and every file name (a non-empty string, the
only kind `handlePlay` acts on), the sources tried when every attempt fails are
the primary candidate followed by `/audio/` ++ file only if that differs from
the primary: one or two entries, no entry twice, the last one `/audio/` ++ file;
under any other pattern of outcomes the sources tried are a prefix of these.
With base path `/voices/th1/` and file `kaa.mp3` they are
`/voices/th1/kaa.mp3`, `/audio/kaa.mp3`; with no voice, `/audio/kaa.mp3` alone. -/
theorem C1_candidate_sources (voice : Option Voice) (ref : Option AudioEl) :
    (∀ file : String, file ≠ "" →
      (handlePlay alwaysFails voice ref (some file)).attempts =
          primarySrc voice file ::
            (if primarySrc voice file = fallbackSrc file then [] else [fallbackSrc file])
        ∧ ((handlePlay alwaysFails voice ref (some file)).attempts.length = 1
            ∨ (handlePlay alwaysFails voice ref (some file)).attempts.length = 2)
        ∧ (handlePlay alwaysFails voice ref (some file)).attempts.Nodup
        ∧ (handlePlay alwaysFails voice ref (some file)).attempts.getLast?
            = some ("/audio/" ++ file)
        ∧ (∀ plays : Nat → String → Bool,
            (handlePlay plays voice ref (some file)).attempts
              <+: (handlePlay alwaysFails voice ref (some file)).attempts))
    ∧ (∀ v : Voice, v.basePath = some "/voices/th1/" →
        (handlePlay alwaysFails (some v) ref (some "kaa.mp3")).attempts
          = ["/voices/th1/kaa.mp3", "/audio/kaa.mp3"])
    ∧ (handlePlay alwaysFails none ref (some "kaa.mp3")).attempts = ["/audio/kaa.mp3"] := by
  refine ⟨?_, ?_, ?_⟩
  · intro file hfile
    have hpre : ∀ plays : Nat → String → Bool,
        (handlePlay plays voice ref (some file)).attempts
          <+: (handlePlay alwaysFails voice ref (some file)).attempts := by
      intro plays
      rw [handlePlay_attempts plays voice ref file hfile,
        handlePlay_attempts alwaysFails voice ref file hfile]
      by_cases hs : primarySrc voice file = fallbackSrc file
      · simp [hs, alwaysFails]
      · by_cases hp : plays 0 (primarySrc voice file) = false
        · simp [hs, hp, alwaysFails]
        · simp [hs, hp, alwaysFails]
    refine ⟨?_, ?_, ?_, ?_, hpre⟩ <;>
      rw [handlePlay_attempts alwaysFails voice ref file hfile]
    all_goals
      by_cases hs : primarySrc voice file = fallbackSrc file
      · simp [hs, alwaysFails, fallbackSrc]
      · have hs2 : ¬ primarySrc voice file = "/audio/" ++ file := hs
        simp [hs, hs2, alwaysFails, fallbackSrc]
  · intro v hv
    rw [handlePlay_attempts alwaysFails (some v) ref "kaa.mp3" (by decide)]
    have hb : baseAudioPath (some v) = "/voices/th1" := by
      rw [baseAudioPath_of_basePath v "/voices/th1/" hv (by decide) (by decide)]
      decide
    simp only [primarySrc, hb, alwaysFails, fallbackSrc]
    decide
  · rw [handlePlay_attempts alwaysFails none ref "kaa.mp3" (by decide)]
    decide

/-- C1 at the voice with base path `/voices/th1/`, no audio element yet. -/
theorem C1_candidate_sources_witness :
    (handlePlay alwaysFails (some (sampleVoice "th1" (some "/voices/th1/"))) none
        (some "kaa.mp3")).attempts = ["/voices/th1/kaa.mp3", "/audio/kaa.mp3"]
    ∧ (handlePlay alwaysFails (some (sampleVoice "th1" (some "/voices/th1/"))) none
        (some "kaa.mp3")).attempts.Nodup :=
  ⟨(C1_candidate_sources (some (sampleVoice "th1" (some "/voices/th1/"))) none).2.1
      (sampleVoice "th1" (some "/voices/th1/")) rfl,
   ((C1_candidate_sources (some (sampleVoice "th1" (some "/voices/th1/"))) none).1
      "kaa.mp3" (by decide)).2.2.1⟩

/-! ## C2: the primary candidate -/

/-- C2, as stated, fails: the base path `/` is a non-empty string, yet the
primary candidate for `kaa.mp3` is `/audio/kaa.mp3` and not the base path minus
its trailing slash followed by `/kaa.mp3`. -/
theorem C2_counterexample :
    (sampleVoice "root" (some "/")).basePath = some "/"
    ∧ "/" ≠ ""
    ∧ primarySrc (some (sampleVoice "root" (some "/"))) "kaa.mp3" = "/audio/kaa.mp3"
    ∧ stripTrailingSlash "/" ++ "/" ++ "kaa.mp3" = "/kaa.mp3"
    ∧ primarySrc (some (sampleVoice "root" (some "/"))) "kaa.mp3"
        ≠ stripTrailingSlash "/" ++ "/" ++ "kaa.mp3" := by
  decide

/-- C2, amended: the primary candidate is `p` ++ `/` ++ file, where `p` is
`/audio` when the voice is absent, has no base path, or has the base path `""`
or `/` (the two strings that are empty once the trailing slash is stripped),
and `p` is the base path with its one trailing slash stripped for every other
base path. Stripping removes exactly one final slash and changes nothing
else. -/
theorem C2_primary_candidate (voice : Option Voice) (file : String) :
    primarySrc voice file = baseAudioPath voice ++ "/" ++ file
    ∧ ((voice = none ∨ ∃ v, voice = some v ∧
          (v.basePath = none ∨ v.basePath = some "" ∨ v.basePath = some "/")) →
        baseAudioPath voice = "/audio" ∧ primarySrc voice file = "/audio/" ++ file)
    ∧ (∀ v b, voice = some v → v.basePath = some b → b ≠ "" → b ≠ "/" →
        baseAudioPath voice = stripTrailingSlash b
        ∧ stripTrailingSlash b ≠ ""
        ∧ primarySrc voice file = stripTrailingSlash b ++ "/" ++ file)
    ∧ (∀ q : String, stripTrailingSlash (q ++ "/") = q)
    ∧ (∀ b : String, (∀ q : String, b ≠ q ++ "/") → stripTrailingSlash b = b) := by
  refine ⟨rfl, ?_, ?_, stripTrailingSlash_append_slash, stripTrailingSlash_of_no_slash⟩
  · intro h
    have hb := baseAudioPath_default voice h
    refine ⟨hb, ?_⟩
    simp only [primarySrc, hb]
    apply String.ext
    simp [String.data_append]
  · intro v b hv hb h1 h2
    subst hv
    have hp := baseAudioPath_of_basePath v b hb h1 h2
    refine ⟨hp, ?_, ?_⟩
    · intro h
      rcases (stripTrailingSlash_eq_empty b).1 h with h | h
      · exact h1 h
      · exact h2 h
    · simp only [primarySrc, hp]

/-- C2 (amended) at the base path `/voices/th1/`. -/
theorem C2_primary_candidate_witness :
    primarySrc (some (sampleVoice "th1" (some "/voices/th1/"))) "kaa.mp3"
      = stripTrailingSlash "/voices/th1/" ++ "/" ++ "kaa.mp3"
    ∧ stripTrailingSlash "/voices/th1/" = "/voices/th1" :=
  ⟨((C2_primary_candidate (some (sampleVoice "th1" (some "/voices/th1/"))) "kaa.mp3").2.2.1
      (sampleVoice "th1" (some "/voices/th1/")) "/voices/th1/" rfl rfl
      (by decide) (by decide)).2.2,
   by decide⟩

/-! ## C3: the order of playback attempts -/

/-- C3: whatever the voice, the audio element and the pattern of playback
outcomes, `handlePlay` on an absent (or empty) file attempts nothing and leaves
the audio handle as it was; on a file name it attempts the primary source
first, then the fallback exactly once if and only if the primary attempt
failed and the fallback differs from the primary; it never makes more than two
attempts, whatever the outcome of the fallback attempt. -/
theorem C3_attempt_order (plays : Nat → String → Bool) (voice : Option Voice)
    (ref : Option AudioEl) (file : Option String) :
    (truthy file = false →
      handlePlay plays voice ref file = { audioRef := ref, attempts := [], errors := 0 })
    ∧ (∀ f : String, file = some f → f ≠ "" →
        (handlePlay plays voice ref file).attempts =
            primarySrc voice f ::
              (if plays 0 (primarySrc voice f) = false ∧ primarySrc voice f ≠ fallbackSrc f
                then [fallbackSrc f] else [])
        ∧ (handlePlay plays voice ref file).attempts.head? = some (primarySrc voice f)
        ∧ ((handlePlay plays voice ref file).attempts.tail = [fallbackSrc f] ↔
            (plays 0 (primarySrc voice f) = false ∧ primarySrc voice f ≠ fallbackSrc f))
        ∧ ((handlePlay plays voice ref file).attempts.tail = [fallbackSrc f]
            ∨ (handlePlay plays voice ref file).attempts.tail = [])
        ∧ (handlePlay plays voice ref file).attempts.length ≤ 2) := by
  constructor
  · intro h
    cases file with
    | none => rfl
    | some f => simp [handlePlay, h]
  · intro f hfile hf
    subst hfile
    rw [handlePlay_attempts plays voice ref f hf]
    by_cases hc : plays 0 (primarySrc voice f) = false ∧ primarySrc voice f ≠ fallbackSrc f
    · simp [hc]
    · simp [hc]

/-- C3 when the primary attempt on `/voices/th1/kaa.mp3` fails and every later
attempt fails as well: two attempts, the fallback second and not retried. -/
theorem C3_attempt_order_witness :
    (handlePlay alwaysFails (some (sampleVoice "th1" (some "/voices/th1/"))) none
        (some "kaa.mp3")).attempts.length ≤ 2
    ∧ (handlePlay alwaysFails (some (sampleVoice "th1" (some "/voices/th1/"))) none
        (some "")) = { audioRef := none, attempts := [], errors := 0 } :=
  ⟨((C3_attempt_order alwaysFails (some (sampleVoice "th1" (some "/voices/th1/"))) none
      (some "kaa.mp3")).2 "kaa.mp3" rfl (by decide)).2.2.2.2,
   (C3_attempt_order alwaysFails (some (sampleVoice "th1" (some "/voices/th1/"))) none
      (some "")).1 (by decide)⟩

/-! ## C4: selecting a voice id that the manifest does not have -/

/-- C4, as stated, fails: with voices `A`, `B` loaded and `B` selected and
stored, `handleVoiceChange` with the unknown id `C` changes the selected id and
the stored preference to `C`, and the voice treated as selected from `B` to
`A`. -/
theorem C4_counterexample :
    (∀ v ∈ [sampleVoice "A" none, sampleVoice "B" none], v.id ≠ "C")
    ∧ selectedVoice (stateAB "B") = some (sampleVoice "B" none)
    ∧ (handleVoiceChange "C" (stateAB "B")).selectedVoiceId = some "C"
    ∧ (handleVoiceChange "C" (stateAB "B")).selectedVoiceId ≠ (stateAB "B").selectedVoiceId
    ∧ (handleVoiceChange "C" (stateAB "B")).storage = some "C"
    ∧ (handleVoiceChange "C" (stateAB "B")).storage ≠ (stateAB "B").storage
    ∧ selectedVoice (handleVoiceChange "C" (stateAB "B")) = some (sampleVoice "A" none)
    ∧ selectedVoice (handleVoiceChange "C" (stateAB "B")) ≠ selectedVoice (stateAB "B") := by
  decide

/-- C4, amended: `handleVoiceChange` does not test the id. For every state and
every id it makes the id the selected voice id, stores it as the preference
(one write) and leaves the manifest alone; when the loaded manifest has no
voice of that id, the voice treated as selected becomes the first voice of the
manifest (none when the list is empty). -/
theorem C4_unknown_voice_selection (st : AppState) (voiceId : String) :
    (handleVoiceChange voiceId st).selectedVoiceId = some voiceId
    ∧ (handleVoiceChange voiceId st).storage = some voiceId
    ∧ (handleVoiceChange voiceId st).writes = st.writes ++ [voiceId]
    ∧ (handleVoiceChange voiceId st).manifest = st.manifest
    ∧ (∀ data vs, st.manifest = some data → data.voices = some vs →
        (∀ v ∈ vs, v.id ≠ voiceId) →
        selectedVoice (handleVoiceChange voiceId st) = vs.head?) := by
  refine ⟨rfl, rfl, rfl, rfl, ?_⟩
  intro data vs hm hv hno
  have hfind : vs.find? (fun v => some v.id == some voiceId) = none := by
    rw [List.find?_eq_none]
    intro v hvmem
    simpa using hno v hvmem
  simp only [selectedVoice, handleVoiceChange, hm, Option.some_bind, hv, hfind]

/-- C4 (amended) with voices `A`, `B`, current `A` and the unknown id `C`: the
selected id and the preference become `C`, the voice treated as selected is the
first voice `A`. -/
theorem C4_unknown_voice_selection_witness :
    (handleVoiceChange "C" (stateAB "A")).selectedVoiceId = some "C"
    ∧ selectedVoice (handleVoiceChange "C" (stateAB "A")) = some (sampleVoice "A" none) :=
  ⟨(C4_unknown_voice_selection (stateAB "A") "C").1,
   (C4_unknown_voice_selection (stateAB "A") "C").2.2.2.2 manifestAB
      [sampleVoice "A" none, sampleVoice "B" none] rfl rfl (by decide)⟩

/-! ## C5: the initial selection made by `loadManifest` -/

theorem hasStored_iff (data : Manifest) (stored : Option String) :
    hasStored data stored = true ↔
      ∃ vs, data.voices = some vs ∧ ∃ v ∈ vs, some v.id = stored := by
  unfold hasStored
  cases hv : data.voices with
  | none => simp
  | some vs => simp

theorem loadManifest_of_chosen (data : Manifest) (st : AppState) (id : String)
    (hi : initialVoice data st.storage = some id) (hne : id ≠ "") :
    loadManifest (some data) st =
      { st with manifest := some data, selectedVoiceId := some id, storage := some id,
                writes := st.writes ++ [id] } := by
  simp [loadManifest, hi, truthy, hne]

theorem loadManifest_of_unset (data : Manifest) (st : AppState)
    (hi : initialVoice data st.storage = none ∨ initialVoice data st.storage = some "") :
    loadManifest (some data) st = { st with manifest := some data } := by
  rcases hi with hi | hi <;> simp [loadManifest, hi, truthy]

/-- C5, as stated, fails: a manifest whose only voice has the empty string as
id is parsed successfully and its voice list is non-empty, yet with no stored
preference `loadManifest` selects nothing and writes nothing, where the claim
has it select (and store) the id of the first voice. -/
theorem C5_counterexample :
    hasStored { voices := some [sampleVoice "" none], clips := none } none = false
    ∧ (loadManifest (some { voices := some [sampleVoice "" none], clips := none })
        (initialState none)).selectedVoiceId = none
    ∧ (loadManifest (some { voices := some [sampleVoice "" none], clips := none })
        (initialState none)).selectedVoiceId ≠ some (sampleVoice "" none).id
    ∧ (loadManifest (some { voices := some [sampleVoice "" none], clips := none })
        (initialState none)).writes = []
    ∧ (loadManifest (some { voices := some [sampleVoice "" none], clips := none })
        (initialState none)).storage = none := by
  decide

/-- C5, amended: on a parsed manifest `loadManifest` chooses the stored id when
some voice has it, otherwise the id of the first voice, otherwise nothing; it
then selects the chosen id and writes exactly that id to the preference only
when the chosen id is a non-empty string. When nothing is chosen (no `voices`
key, or an empty list) or the chosen id is the empty string, the selection, the
preference and the list of writes are left as they were. -/
theorem C5_initial_selection (data : Manifest) (st : AppState) :
    (loadManifest (some data) st).manifest = some data
    ∧ (∀ s vs, st.storage = some s → data.voices = some vs → (∃ v ∈ vs, v.id = s) → s ≠ "" →
        (loadManifest (some data) st).selectedVoiceId = some s
        ∧ (loadManifest (some data) st).storage = some s
        ∧ (loadManifest (some data) st).writes = st.writes ++ [s])
    ∧ (∀ v vs, data.voices = some (v :: vs) → (∀ w ∈ v :: vs, some w.id ≠ st.storage) →
        v.id ≠ "" →
        (loadManifest (some data) st).selectedVoiceId = some v.id
        ∧ (loadManifest (some data) st).storage = some v.id
        ∧ (loadManifest (some data) st).writes = st.writes ++ [v.id])
    ∧ ((data.voices = none ∨ data.voices = some []) →
        (loadManifest (some data) st).selectedVoiceId = st.selectedVoiceId
        ∧ (loadManifest (some data) st).storage = st.storage
        ∧ (loadManifest (some data) st).writes = st.writes)
    ∧ (initialVoice data st.storage = some "" →
        (loadManifest (some data) st).selectedVoiceId = st.selectedVoiceId
        ∧ (loadManifest (some data) st).storage = st.storage
        ∧ (loadManifest (some data) st).writes = st.writes)
    ∧ (((loadManifest (some data) st).selectedVoiceId = st.selectedVoiceId
          ∧ (loadManifest (some data) st).storage = st.storage
          ∧ (loadManifest (some data) st).writes = st.writes)
        ∨ (∃ id, id ≠ "" ∧ initialVoice data st.storage = some id
            ∧ (loadManifest (some data) st).selectedVoiceId = some id
            ∧ (loadManifest (some data) st).storage = some id
            ∧ (loadManifest (some data) st).writes = st.writes ++ [id])) := by
  refine ⟨?_, ?_, ?_, ?_, ?_, ?_⟩
  · cases hi : initialVoice data st.storage with
    | none => rw [loadManifest_of_unset data st (Or.inl hi)]
    | some id =>
      by_cases hne : id = ""
      · subst hne
        rw [loadManifest_of_unset data st (Or.inr hi)]
      · rw [loadManifest_of_chosen data st id hi hne]
  · intro s vs hs hv hex hne
    have hst : hasStored data st.storage = true := by
      rw [hasStored_iff]
      obtain ⟨v, hvm, hid⟩ := hex
      exact ⟨vs, hv, v, hvm, by rw [hid, hs]⟩
    have hi : initialVoice data st.storage = some s := by
      rw [hs] at hst ⊢
      simp [initialVoice, hst]
    rw [loadManifest_of_chosen data st s hi hne]
    exact ⟨rfl, rfl, rfl⟩
  · intro v vs hv hno hne
    have hst : hasStored data st.storage = false := by
      rw [Bool.eq_false_iff]
      intro h
      obtain ⟨vs2, hv2, w, hw, hid⟩ := (hasStored_iff data st.storage).1 h
      rw [hv] at hv2
      have hvs : v :: vs = vs2 := Option.some.inj hv2
      subst hvs
      exact hno w hw hid
    have hi : initialVoice data st.storage = some v.id := by
      simp [initialVoice, hst, hv]
    rw [loadManifest_of_chosen data st v.id hi hne]
    exact ⟨rfl, rfl, rfl⟩
  · intro hv
    have hst : hasStored data st.storage = false := by
      rcases hv with hv | hv <;> simp [hasStored, hv]
    have hi : initialVoice data st.storage = none := by
      rcases hv with hv | hv <;> simp [initialVoice, hst, hv]
    rw [loadManifest_of_unset data st (Or.inl hi)]
    exact ⟨rfl, rfl, rfl⟩
  · intro hi
    rw [loadManifest_of_unset data st (Or.inr hi)]
    exact ⟨rfl, rfl, rfl⟩
  · cases hi : initialVoice data st.storage with
    | none =>
      rw [loadManifest_of_unset data st (Or.inl hi)]
      exact Or.inl ⟨rfl, rfl, rfl⟩
    | some id =>
      by_cases hne : id = ""
      · subst hne
        rw [loadManifest_of_unset data st (Or.inr hi)]
        exact Or.inl ⟨rfl, rfl, rfl⟩
      · rw [loadManifest_of_chosen data st id hi hne]
        exact Or.inr ⟨id, hne, rfl, rfl, rfl, rfl⟩

/-- C5 (amended) with voices `A`, `B` and the stored id `ghost`, which no voice
has: the first voice `A` is selected and `A` is written. -/
theorem C5_initial_selection_witness :
    (loadManifest (some manifestAB) (initialState (some "ghost"))).selectedVoiceId = some "A"
    ∧ (loadManifest (some manifestAB) (initialState (some "ghost"))).storage = some "A"
    ∧ (loadManifest (some manifestAB) (initialState (some "ghost"))).writes = [] ++ ["A"] :=
  (C5_initial_selection manifestAB (initialState (some "ghost"))).2.2.1
    (sampleVoice "A" none) [sampleVoice "B" none] rfl (by decide) (by decide)

/-! ## C6: the clip lookup -/

theorem lookup_filter_ne (acc : JSObject) (k w : String) (h : w ≠ k) :
    (acc.filter (fun kv => kv.1 != k)).lookup w = acc.lookup w := by
  induction acc with
  | nil => rfl
  | cons kv rest ih =>
    obtain ⟨a, b⟩ := kv
    by_cases hak : a = k
    · subst hak
      have hwa : (w == a) = false := by simpa using h
      simp [List.filter, List.lookup, hwa, ih]
    · have hf : (a != k) = true := by simpa using hak
      by_cases hwa : w = a
      · subst hwa
        simp [List.filter, hf, List.lookup]
      · have hb : (w == a) = false := by simpa using hwa
        simp [List.filter, hf, List.lookup, hb, ih]

theorem lookup_set_ne (acc : JSObject) (k v w : String) (h : w ≠ k) :
    (acc.set k v).lookup w = acc.lookup w := by
  unfold JSObject.set
  split
  · rfl
  · have hb : (w == k) = false := by simpa using h
    simp [List.lookup, hb, lookup_filter_ne acc k w h]

theorem lookup_set_self (acc : JSObject) (k v : String) (h : k ≠ "__proto__") :
    (acc.set k v).lookup k = some v := by
  simp [JSObject.set, h, List.lookup]

theorem lookup_foldl_set_ne (w : String) (post : List ClipEntry) :
    ∀ init : JSObject, (∀ d ∈ post, d.word ≠ w) →
      (post.foldl (fun acc clip => acc.set clip.word clip.file) init).lookup w
        = init.lookup w := by
  induction post with
  | nil => intro init _; rfl
  | cons d rest ih =>
    intro init h
    rw [List.foldl_cons, ih _ (fun e he => h e (List.mem_cons_of_mem _ he))]
    exact lookup_set_ne init d.word d.file w (fun hw => h d (List.mem_cons_self _ _) hw.symm)

/-- C6, as stated, fails on the names an object literal inherits. With no
`clips` key no entry has the word `constructor`, yet the lookup of
`constructor` is not absent; and with the single clip of word `__proto__` and
file `x.mp3` the lookup of `__proto__` is not `x.mp3`. -/
theorem C6_counterexample :
    audioFor (audioMap (some emptyManifest)) "constructor"
        = JSValue.inherited "constructor"
    ∧ audioFor (audioMap (some emptyManifest)) "constructor"
        ≠ JSValue.undefined
    ∧ audioFor (audioMap (some (manifestOfClips [{ word := "__proto__", file := "x.mp3" }]))) "__proto__"
        ≠ JSValue.str "x.mp3" := by
  decide

/-- C6, amended: for every manifest (loaded or not, with or without a `clips`
key) and every word that is not one of the property names inherited from
`Object.prototype`, the lookup returns the file of the last clip entry, in
manifest order, whose word equals the word exactly, and is absent when no
entry has that word. Clips `กา` to `a.mp3` then `กา` to `b.mp3` resolve `กา`
to `b.mp3`. -/
theorem C6_last_clip_wins (manifest : Option Manifest) (w : String)
    (hw : w ∉ objectPrototypeKeys) :
    (∀ clips pre c post, manifest.bind (fun m => m.clips) = some clips →
        clips = pre ++ c :: post → c.word = w → (∀ d ∈ post, d.word ≠ w) →
        audioFor (audioMap manifest) w = JSValue.str c.file)
    ∧ (∀ clips, manifest.bind (fun m => m.clips) = some clips → (∀ c ∈ clips, c.word ≠ w) →
        audioFor (audioMap manifest) w = JSValue.undefined)
    ∧ (manifest.bind (fun m => m.clips) = none →
        audioFor (audioMap manifest) w = JSValue.undefined)
    ∧ audioFor (audioMap (some (manifestOfClips
          [{ word := "กา", file := "a.mp3" }, { word := "กา", file := "b.mp3" }])))
        "กา" = JSValue.str "b.mp3" := by
  have hproto : w ≠ "__proto__" := by
    intro h
    apply hw
    rw [h]
    decide
  refine ⟨?_, ?_, ?_, by decide⟩
  · intro clips pre c post hm hc hcw hpost
    have hl : (audioMap manifest).lookup w = some c.file := by
      simp only [audioMap, hm]
      rw [hc, List.foldl_append, List.foldl_cons, lookup_foldl_set_ne w post _ hpost]
      rw [← hcw] at hproto ⊢
      exact lookup_set_self _ c.word c.file hproto
    simp [audioFor, JSObject.get, hl]
  · intro clips hm hno
    have hl : (audioMap manifest).lookup w = none := by
      simp only [audioMap, hm]
      rw [lookup_foldl_set_ne w clips _ hno]
      rfl
    simp [audioFor, JSObject.get, hl, hw]
  · intro hm
    simp [audioFor, JSObject.get, audioMap, hm, hw, List.lookup]

/-- C6 (amended) at the word `กา` with two clips of that word followed by a
clip whose word differs by a trailing blank: the second file is returned. -/
theorem C6_last_clip_wins_witness :
    audioFor (audioMap (some (manifestOfClips
        [{ word := "กา", file := "a.mp3" }, { word := "กา", file := "b.mp3" },
         { word := "กา ", file := "c.mp3" }]))) "กา" = JSValue.str "b.mp3" :=
  (C6_last_clip_wins (some (manifestOfClips
        [{ word := "กา", file := "a.mp3" }, { word := "กา", file := "b.mp3" },
         { word := "กา ", file := "c.mp3" }])) "กา" (by decide)).1
    [{ word := "กา", file := "a.mp3" }, { word := "กา", file := "b.mp3" },
     { word := "กา ", file := "c.mp3" }]
    [{ word := "กา", file := "a.mp3" }] { word := "กา", file := "b.mp3" }
    [{ word := "กา ", file := "c.mp3" }] rfl rfl rfl (by decide)

/-! ## C7: the voice treated as selected -/

theorem find?_first {α : Type} (p : α → Bool) (pre post : List α) (v : α)
    (hv : p v = true) (hpre : ∀ u ∈ pre, p u = false) :
    (pre ++ v :: post).find? p = some v := by
  induction pre with
  | nil => simp [List.find?, hv]
  | cons u rest ih =>
    have hu : p u = false := hpre u (List.mem_cons_self _ _)
    simp only [List.cons_append, List.find?, hu]
    exact ih (fun w hw => hpre w (List.mem_cons_of_mem _ hw))

/-- C7: when the loaded manifest has a non-empty voice list, whatever the
selected voice id is (unset, known or unknown), `selectedVoice` is an element of
that list: the first voice whose id equals the selected id when there is one,
and the first voice of the list otherwise. `selectedVoice` is absent exactly
when no manifest is loaded or its voice list is missing or empty. -/
theorem C7_selected_voice_in_manifest (st : AppState) :
    (∀ data vs, st.manifest = some data → data.voices = some vs → vs ≠ [] →
        (∃ v, selectedVoice st = some v ∧ v ∈ vs)
        ∧ (∀ id pre v post, st.selectedVoiceId = some id → vs = pre ++ v :: post →
            v.id = id → (∀ u ∈ pre, u.id ≠ id) → selectedVoice st = some v)
        ∧ ((∀ v ∈ vs, some v.id ≠ st.selectedVoiceId) → selectedVoice st = vs.head?))
    ∧ (selectedVoice st = none ↔
        (st.manifest = none ∨
          ∃ data, st.manifest = some data ∧ (data.voices = none ∨ data.voices = some []))) := by
  constructor
  · intro data vs hm hv hne
    have hsel : selectedVoice st =
        (match vs.find? (fun v => some v.id == st.selectedVoiceId) with
          | some v => some v
          | none => vs.head?) := by
      simp only [selectedVoice, hm, Option.some_bind, hv]
    refine ⟨?_, ?_, ?_⟩
    · rw [hsel]
      cases hf : vs.find? (fun v => some v.id == st.selectedVoiceId) with
      | some v => exact ⟨v, rfl, List.mem_of_find?_eq_some hf⟩
      | none =>
        cases vs with
        | nil => exact absurd rfl hne
        | cons v rest => exact ⟨v, rfl, List.mem_cons_self _ _⟩
    · intro id pre v post hid hvs hvid hpre
      rw [hsel, hvs, hid]
      have hf : (pre ++ v :: post).find? (fun v => some v.id == some id) = some v := by
        apply find?_first
        · simp [hvid]
        · intro u hu
          simpa using hpre u hu
      rw [hf]
    · intro hno
      have hf : vs.find? (fun v => some v.id == st.selectedVoiceId) = none := by
        rw [List.find?_eq_none]
        intro v hvm
        simpa using hno v hvm
      rw [hsel, hf]
  · cases hm : st.manifest with
    | none => simp [selectedVoice, hm]
    | some data =>
      cases hv : data.voices with
      | none => simp [selectedVoice, hm, hv]
      | some vs =>
        cases vs with
        | nil => simp [selectedVoice, hm, hv]
        | cons v rest =>
          have hsel : selectedVoice st ≠ none := by
            simp only [selectedVoice, hm, Option.some_bind, hv]
            cases hf : (v :: rest).find? (fun v => some v.id == st.selectedVoiceId) with
            | some w => simp
            | none => simp
          simp [hsel, hv]

/-- C7 with voices `A`, `B` and the unknown selected id `C`: the selected voice
is the first voice `A`; with the selected id `B` it is `B`. -/
theorem C7_selected_voice_in_manifest_witness :
    selectedVoice (stateAB "C") = some (sampleVoice "A" none)
    ∧ selectedVoice (stateAB "B") = some (sampleVoice "B" none) :=
  ⟨((C7_selected_voice_in_manifest (stateAB "C")).1 manifestAB
      [sampleVoice "A" none, sampleVoice "B" none] rfl rfl (by decide)).2.2 (by decide),
   ((C7_selected_voice_in_manifest (stateAB "B")).1 manifestAB
      [sampleVoice "A" none, sampleVoice "B" none] rfl rfl (by decide)).2.1
      "B" [sampleVoice "A" none] (sampleVoice "B" none) [] rfl rfl rfl (by decide)⟩

/-! ## C8: expanding and collapsing a rule -/

/-- C8: for every expansion state (none, or one rule id) and every rule id,
the click handler yields none when that rule is the expanded one and yields
that rule otherwise; at most one rule card is active afterwards; and from a
state in which the rule is not expanded, two clicks on it end with no rule
expanded (rule 3 clicked twice from none gives none). -/
theorem C8_toggle_rule (s : Option Nat) (r : Nat) :
    (s = some r → toggleRule r s = none)
    ∧ (s ≠ some r → toggleRule r s = some r)
    ∧ (∀ a b, isActive (toggleRule r s) a = true → isActive (toggleRule r s) b = true → a = b)
    ∧ (∀ a, isActive (toggleRule r s) a = true ↔ (a = r ∧ s ≠ some r))
    ∧ (s ≠ some r → toggleRule r (toggleRule r s) = none)
    ∧ toggleRule 3 (toggleRule 3 none) = none := by
  refine ⟨?_, ?_, ?_, ?_, ?_, by decide⟩
  · intro h
    simp [toggleRule, h]
  · intro h
    simp [toggleRule, h]
  · intro a b ha hb
    by_cases h : s = some r
    · simp [toggleRule, h, isActive] at ha
    · simp [toggleRule, h, isActive] at ha hb
      rw [← ha, ← hb]
  · intro a
    by_cases h : s = some r
    · simp [toggleRule, h, isActive]
    · simp only [toggleRule, h, isActive, if_false, beq_iff_eq, Option.some.injEq, ne_eq,
        not_false_eq_true, and_true]
      exact eq_comm
  · intro h
    simp [toggleRule, h]

/-- C8 from the state in which rule 5 is expanded: clicking rule 3 expands rule
3, clicking it again collapses it. -/
theorem C8_toggle_rule_witness :
    toggleRule 3 (some 5) = some 3 ∧ toggleRule 3 (toggleRule 3 (some 5)) = none :=
  ⟨(C8_toggle_rule (some 5) 3).2.1 (by decide),
   (C8_toggle_rule (some 5) 3).2.2.2.2.1 (by decide)⟩

/-! ## C9 and C10: the rule table -/

/-- C9, as stated, fails at rule 1: none of its five outcomes has the no-mark
shape `—` (its first outcome carries the shape `สามัญ`), so rule 1 has no
outcome of that shape whose sound could be compared with its base tone. -/
theorem C9_counterexample :
    ∃ r ∈ rules [], r.id = 1 ∧ (∀ t ∈ r.tones, isNoMarkShape t = false)
      ∧ ¬ (∃ t ∈ r.tones, t.shape = "—" ∧ t.sound = r.base) := by
  decide

/-- C9, amended: for every rule of the table the base tone equals the sound of
the rule's first outcome, which is the rule's only outcome without a tone
mark. That outcome has the shape `—` in rules 2 to 7 and the shape `สามัญ` in
rule 1, and no later outcome of any rule has either shape. -/
theorem C9_base_tone_is_unmarked_sound (am : JSObject) :
    (rules am).length = 7
    ∧ ∀ r ∈ rules am,
        ∃ t, r.tones.head? = some t
          ∧ t.sound = r.base
          ∧ (r.id = 1 → t.shape = "สามัญ")
          ∧ (r.id ≠ 1 → t.shape = "—")
          ∧ (∀ u ∈ r.tones.tail, u.shape ≠ "—" ∧ u.shape ≠ "สามัญ") := by
  refine ⟨rfl, ?_⟩
  simp [rules]

/-- C9 (amended) at rule 4 of the table built from the empty clip lookup: its
first outcome has the shape `—` and the sound `เอก`, the base tone of the rule. -/
theorem C9_base_tone_is_unmarked_sound_witness :
    ∃ t, ((rules []).drop 3).head?.bind (fun r => r.tones.head?) = some t
      ∧ t.sound = "เอก" ∧ t.shape = "—" := by
  obtain ⟨t, ht, hs, _, h2, _⟩ :=
    (C9_base_tone_is_unmarked_sound []).2
      { id := 4, consonant := "สูง", syllable := "คำตาย", base := "เอก", count := 2,
        tones := [
          { shape := "—", sound := "เอก", exampleWord := "ขะ", audio := audioFor [] "ขะ" },
          { shape := "โท", sound := "โท", exampleWord := "ข้ะ", audio := audioFor [] "ข้ะ" } ],
        note := "ผันได้น้อยที่สุด" }
      (by decide)
  exact ⟨t, ht, hs, h2 (by decide)⟩

/-- C10: the table has 7 rules; in each of them the number of outcomes equals
the declared `count`, every shape is one of the known ones, the outcomes are in
strictly increasing order of tone mark (none, เอก, โท, ตรี, จัตวา), and an
outcome of the no-mark shape `—`, when the rule has one, is the first. -/
theorem C10_count_and_order (am : JSObject) :
    (rules am).length = 7
    ∧ ∀ r ∈ rules am,
        r.tones.length = r.count
        ∧ (∀ t ∈ r.tones, markRank t.shape ≤ 4)
        ∧ r.tones.Pairwise (fun a b => markRank a.shape < markRank b.shape)
        ∧ (∀ t ∈ r.tones, isNoMarkShape t = true → r.tones.head? = some t) := by
  refine ⟨rfl, ?_⟩
  simp [rules, isNoMarkShape]
  decide

/-- C10 at rule 6 of the table built from the empty clip lookup: three
outcomes for the declared count 3, of shapes `—`, `เอก`, `จัตวา` in that order. -/
theorem C10_count_and_order_witness :
    ∃ r, ((rules []).drop 5).head? = some r ∧ r.tones.length = r.count
      ∧ r.tones.Pairwise (fun a b => markRank a.shape < markRank b.shape) := by
  refine ⟨_, rfl, ?_⟩
  have h := (C10_count_and_order []).2 _
    (List.mem_of_mem_head? (show ((rules []).drop 5).head? = some _ from rfl) |> List.mem_of_mem_drop)
  exact ⟨h.1, h.2.2.1⟩

/-! ## C11: the rows of the rule table -/

/-- C11: whatever clip lookup the table is built from, it has exactly 7 rules,
with ids 1 to 7 in that order, and their rows of consonant class, syllable
type, declared count and base tone are, in order: กลาง, คำเป็น, 5, สามัญ;
กลาง, คำตาย, 4, เอก; สูง, คำเป็น, 3, จัตวา; สูง, คำตาย, 2, เอก; ต่ำ, คำเป็น, 3,
สามัญ; ต่ำ, คำตาย สระสั้น, 3, ตรี; ต่ำ, คำตาย สระยาว, 2, โท. No pair of class
and syllable type occurs twice. -/
theorem C11_rule_rows (am : JSObject) :
    (rules am).length = 7
    ∧ (rules am).map (fun r => r.id) = [1, 2, 3, 4, 5, 6, 7]
    ∧ (rules am).map (fun r => (r.consonant, r.syllable, r.count, r.base)) =
        [("กลาง", "คำเป็น", 5, "สามัญ"),
         ("กลาง", "คำตาย", 4, "เอก"),
         ("สูง", "คำเป็น", 3, "จัตวา"),
         ("สูง", "คำตาย", 2, "เอก"),
         ("ต่ำ", "คำเป็น", 3, "สามัญ"),
         ("ต่ำ", "คำตาย สระสั้น", 3, "ตรี"),
         ("ต่ำ", "คำตาย สระยาว", 2, "โท")]
    ∧ ((rules am).map (fun r => (r.consonant, r.syllable))).Nodup := by
  refine ⟨rfl, rfl, rfl, ?_⟩
  have h : (rules am).map (fun r => (r.consonant, r.syllable)) =
      (rules []).map (fun r => (r.consonant, r.syllable)) := rfl
  rw [h]
  decide

/-! ## C12: the tone marks of high-class and low-class rules -/

/-- C12 evaluated on the table: among the rules whose consonant class is สูง
or ต่ำ, exactly one has an outcome of shape ตรี or จัตวา, namely rule 6 (class
ต่ำ), whose third outcome has the shape จัตวา and the example `ค๋ะ`. So the
table does not satisfy the statement that no such rule has such an outcome,
which is what the warning printed under the table (lines 577-580) says. -/
theorem C12_low_class_rule_has_rising_mark (am : JSObject) :
    ((rules am).filter (fun r =>
        (r.consonant == "สูง" || r.consonant == "ต่ำ")
          && r.tones.any (fun t => t.shape == "ตรี" || t.shape == "จัตวา"))).map
        (fun r => (r.id, r.consonant, r.tones.map (fun t => (t.shape, t.exampleWord))))
      = [(6, "ต่ำ", [("—", "คะ"), ("เอก", "ค่ะ"), ("จัตวา", "ค๋ะ")])]
    ∧ ¬ (∀ r ∈ rules am, (r.consonant = "สูง" ∨ r.consonant = "ต่ำ") →
          ∀ t ∈ r.tones, t.shape ≠ "ตรี" ∧ t.shape ≠ "จัตวา") := by
  refine ⟨rfl, ?_⟩
  intro h
  have h6 := h
    { id := 6, consonant := "ต่ำ", syllable := "คำตาย สระสั้น", base := "ตรี", count := 3,
      tones := [
        { shape := "—", sound := "ตรี", exampleWord := "คะ", audio := audioFor am "คะ" },
        { shape := "เอก", sound := "โท", exampleWord := "ค่ะ", audio := audioFor am "ค่ะ" },
        { shape := "จัตวา", sound := "จัตวา", exampleWord := "ค๋ะ", audio := audioFor am "ค๋ะ" } ],
      note := "พื้นเสียงตรี" }
    (by simp [rules]) (Or.inr rfl)
    { shape := "จัตวา", sound := "จัตวา", exampleWord := "ค๋ะ", audio := audioFor am "ค๋ะ" }
    (by simp)
  exact h6.2 rfl

/-! ## C13: the clip joined to an outcome -/

theorem lookup_set_ne_none (acc : JSObject) (k v w : String) (hw : w ≠ "__proto__")
    (h : k = w ∨ acc.lookup w ≠ none) :
    (acc.set k v).lookup w ≠ none := by
  by_cases hk : k = w
  · subst hk
    rw [lookup_set_self acc k v hw]
    exact Option.some_ne_none v
  · rw [lookup_set_ne acc k v w (fun e => hk e.symm)]
    rcases h with h | h
    · exact absurd h hk
    · exact h

theorem lookup_foldl_set_ne_none (w : String) (hw : w ≠ "__proto__") (clips : List ClipEntry) :
    ∀ init : JSObject, (init.lookup w ≠ none ∨ ∃ c ∈ clips, c.word = w) →
      (clips.foldl (fun acc clip => acc.set clip.word clip.file) init).lookup w ≠ none := by
  induction clips with
  | nil =>
    intro init h
    rcases h with h | ⟨c, hc, _⟩
    · exact h
    · cases hc
  | cons d rest ih =>
    intro init h
    rw [List.foldl_cons]
    apply ih
    rcases h with h | ⟨c, hc, hcw⟩
    · exact Or.inl (lookup_set_ne_none init d.word d.file w hw (Or.inr h))
    · rcases List.mem_cons.1 hc with hcd | hcr
      · subst hcd
        exact Or.inl (lookup_set_ne_none init c.word c.file w hw (Or.inl hcw))
      · exact Or.inr ⟨c, hcr, hcw⟩

theorem lookup_foldl_set_some (w f : String) (clips : List ClipEntry) :
    ∀ init : JSObject,
      (clips.foldl (fun acc clip => acc.set clip.word clip.file) init).lookup w = some f →
      init.lookup w = some f ∨ ∃ c ∈ clips, c.word = w ∧ c.file = f := by
  induction clips with
  | nil => intro init h; exact Or.inl h
  | cons d rest ih =>
    intro init h
    rw [List.foldl_cons] at h
    rcases ih _ h with h1 | ⟨c, hc, hcw, hcf⟩
    · by_cases hk : d.word = w
      · by_cases hp : d.word = "__proto__"
        · left
          simpa [JSObject.set, hp] using h1
        · right
          rw [← hk, lookup_set_self init d.word d.file hp] at h1
          exact ⟨d, List.mem_cons_self _ _, hk, Option.some.inj h1⟩
      · left
        rw [lookup_set_ne init d.word d.file w (fun e => hk e.symm)] at h1
        exact h1
    · exact Or.inr ⟨c, List.mem_cons_of_mem _ hc, hcw, hcf⟩

theorem audioFor_audioMap_cases (manifest : Option Manifest) (w : String)
    (hw : w ∉ objectPrototypeKeys) :
    (audioFor (audioMap manifest) w ≠ JSValue.undefined ↔
        ∃ clips, manifest.bind (fun m => m.clips) = some clips ∧ ∃ c ∈ clips, c.word = w)
    ∧ (audioFor (audioMap manifest) w = JSValue.undefined
        ∨ ∃ clips, manifest.bind (fun m => m.clips) = some clips ∧
            ∃ c ∈ clips, c.word = w ∧ audioFor (audioMap manifest) w = JSValue.str c.file) := by
  have hproto : w ≠ "__proto__" := by
    intro h
    apply hw
    rw [h]
    decide
  cases hm : manifest.bind (fun m => m.clips) with
  | none =>
    have hu : audioFor (audioMap manifest) w = JSValue.undefined := by
      simp [audioFor, JSObject.get, audioMap, hm, hw, List.lookup]
    simp [hu]
  | some clips =>
    cases hl : (clips.foldl (fun (acc : JSObject) clip => acc.set clip.word clip.file)
        []).lookup w with
    | none =>
      have hu : audioFor (audioMap manifest) w = JSValue.undefined := by
        simp [audioFor, JSObject.get, audioMap, hm, hl, hw]
      have hno : ¬ ∃ c ∈ clips, c.word = w := by
        intro hex
        exact lookup_foldl_set_ne_none w hproto clips [] (Or.inr hex) hl
      simp only [hu, ne_eq, not_true_eq_false, false_iff, true_or, and_true]
      rintro ⟨clips2, h2, hex⟩
      rw [Option.some.inj h2] at hno
      exact hno hex
    | some f =>
      have hs : audioFor (audioMap manifest) w = JSValue.str f := by
        simp [audioFor, JSObject.get, audioMap, hm, hl]
      rcases lookup_foldl_set_some w f clips [] hl with h0 | ⟨c, hc, hcw, hcf⟩
      · simp [List.lookup] at h0
      · refine ⟨?_, Or.inr ⟨clips, rfl, c, hc, hcw, by rw [hs, hcf]⟩⟩
        rw [hs]
        simp only [ne_eq, reduceCtorEq, not_false_eq_true, true_iff]
        exact ⟨clips, rfl, c, hc, hcw⟩

theorem tone_audio_eq (am : JSObject) :
    ∀ r ∈ rules am, ∀ t ∈ r.tones, t.audio = audioFor am t.exampleWord := by
  simp [rules]

theorem exampleWord_not_inherited (am : JSObject) :
    ∀ r ∈ rules am, ∀ t ∈ r.tones, t.exampleWord ∉ objectPrototypeKeys := by
  simp [rules, objectPrototypeKeys]

/-- C13: for every clip lookup and every outcome of every rule, the clip
joined to the outcome is `audioFor` applied to the very string the outcome
displays as its example. The table has 22 outcomes and their example words are
pairwise distinct. When the lookup is the one built from a manifest, an
outcome has a clip exactly when the manifest has a clip entry whose word is the
displayed example, and the clip is then the file of such an entry. -/
theorem C13_clip_joined_by_displayed_word :
    (∀ am : JSObject, ∀ r ∈ rules am, ∀ t ∈ r.tones, t.audio = audioFor am t.exampleWord)
    ∧ (∀ am : JSObject,
        ((rules am).flatMap (fun r => r.tones)).length = 22
        ∧ (((rules am).flatMap (fun r => r.tones)).map (fun t => t.exampleWord)).Nodup)
    ∧ (∀ manifest : Option Manifest, ∀ r ∈ rules (audioMap manifest), ∀ t ∈ r.tones,
        (t.audio ≠ JSValue.undefined ↔
          ∃ clips, manifest.bind (fun m => m.clips) = some clips ∧
            ∃ c ∈ clips, c.word = t.exampleWord)
        ∧ (t.audio = JSValue.undefined
            ∨ ∃ clips, manifest.bind (fun m => m.clips) = some clips ∧
                ∃ c ∈ clips, c.word = t.exampleWord ∧ t.audio = JSValue.str c.file)) := by
  refine ⟨tone_audio_eq, ?_, ?_⟩
  · intro am
    refine ⟨rfl, ?_⟩
    have h : ((rules am).flatMap (fun r => r.tones)).map (fun t => t.exampleWord) =
        ((rules []).flatMap (fun r => r.tones)).map (fun t => t.exampleWord) := rfl
    rw [h]
    decide
  · intro manifest r hr t ht
    rw [tone_audio_eq (audioMap manifest) r hr t ht]
    exact audioFor_audioMap_cases manifest t.exampleWord
      (exampleWord_not_inherited (audioMap manifest) r hr t ht)

/-- C13 at the manifest whose clips are `กา` to `a.mp3` and `กา` to `b.mp3`,
for the first outcome of rule 1, displayed as `กา`: it has a clip, as the
manifest has an entry of that word. -/
theorem C13_clip_joined_by_displayed_word_witness :
    (audioFor (audioMap (some manifestKaa)) "กา" ≠ JSValue.undefined ↔
      ∃ clips, (some manifestKaa).bind (fun m => m.clips) = some clips ∧
        ∃ c ∈ clips, c.word = "กา")
    ∧ audioFor (audioMap (some manifestKaa)) "กา" = JSValue.str "b.mp3" := by
  have hr : (rules (audioMap (some manifestKaa))).head? = some _ := rfl
  have ht : ((rules (audioMap (some manifestKaa))).head?.bind
      (fun r => r.tones.head?)) = some _ := rfl
  refine ⟨?_, by decide⟩
  exact (C13_clip_joined_by_displayed_word.2.2 (some manifestKaa) _
    (List.mem_of_mem_head? hr) _ (List.mem_of_mem_head? ht)).1

end ThaiVoice
